import Mathlib

/-!
Verification of the bookworm storefront's cart subsystem.

The definitions below are a shallow embedding of the cart state engine of
`src/fe-client/src/contexts/CartContext.tsx` and of the checkout-time
reconciliation / order-submission flow of the `CartPage` component found in
`src/unnamed/part_011`.

Modelling conventions:
* JS numbers that hold prices are modelled as `ℚ` (the code only adds,
  multiplies and compares them), quantities and ids as `Int`/`Nat`.
* The `string | number` item id is modelled as `Nat` (ids are only compared
  for equality and coerced with `Number(...)` before submission).
* Fallible JS code (thrown exceptions) is modelled with `Except`.
-/

namespace Bookworm

/-- `CartItem` of `CartContext.tsx`: optional fields become `Option`. -/
structure CartItem where
  id : Nat
  title : String
  authorName : String
  imageUrl : Option String
  price : ℚ
  discountPrice : Option ℚ
  quantity : Int
deriving DecidableEq, Repr

/-- `CartState` of `CartContext.tsx`. -/
structure CartState where
  items : List CartItem
  totalItems : Int
  totalPrice : ℚ
deriving DecidableEq, Repr

/-- `initialState`: the empty cart. -/
def initialState : CartState := { items := [], totalItems := 0, totalPrice := 0 }

/-- `item.discountPrice ?? item.price` — the price a line contributes with. -/
def effectivePrice (item : CartItem) : ℚ :=
  item.discountPrice.getD item.price

/-- The record returned by `calculateTotals`. -/
structure CartTotals where
  totalItems : Int
  totalPrice : ℚ
deriving DecidableEq, Repr

/-- `calculateTotals` of `CartContext.tsx`: two `reduce`s (left folds) over the
line list. -/
def calculateTotals (items : List CartItem) : CartTotals :=
  { totalItems := items.foldl (fun total item => total + item.quantity) 0
    totalPrice := items.foldl (fun total item => total + effectivePrice item * (item.quantity : ℚ)) 0 }

/-- The `CartAction` union of `CartContext.tsx`. -/
inductive CartAction where
  | add (payload : CartItem)
  | remove (id : Nat)
  | update (id : Nat) (quantity : Int)
  | clear
deriving DecidableEq, Repr

/-- `{ ...state, items: updatedItems, ...calculateTotals(updatedItems) }`:
`CartState` has no other fields, so the spread rebuilds the whole record. -/
def stateFrom (items : List CartItem) : CartState :=
  { items := items
    totalItems := (calculateTotals items).totalItems
    totalPrice := (calculateTotals items).totalPrice }

/-- The `ADD_ITEM` update of the line list: `findIndex` locates the first line
with the payload's id and only that line's quantity is bumped in place;
when no line matches, the payload is pushed at the end
(`[...state.items, action.payload]`). -/
def addItemToItems (payload : CartItem) : List CartItem → List CartItem
  | [] => [payload]
  | item :: rest =>
    if item.id = payload.id then
      { item with quantity := item.quantity + payload.quantity } :: rest
    else
      item :: addItemToItems payload rest

/-- The `REMOVE_ITEM` case: `state.items.filter(item => item.id !== id)`,
then totals recomputed. -/
def removeItemFromState (state : CartState) (id : Nat) : CartState :=
  stateFrom (state.items.filter (fun item => item.id ≠ id))

/-- `cartReducer` of `CartContext.tsx`.  The `UPDATE_QUANTITY` case with a
non-positive quantity delegates to the `REMOVE_ITEM` case, exactly as the
source re-dispatches `{ type: 'REMOVE_ITEM' }`. -/
def cartReducer (state : CartState) (action : CartAction) : CartState :=
  match action with
  | .add payload => stateFrom (addItemToItems payload state.items)
  | .remove id => removeItemFromState state id
  | .update id quantity =>
    if quantity ≤ 0 then
      removeItemFromState state id
    else
      stateFrom (state.items.map (fun item =>
        if item.id = id then { item with quantity := quantity } else item))
  | .clear => initialState

/-- `Omit<CartItem, 'quantity'>` — what the `addItem` action creator takes. -/
structure LineCandidate where
  id : Nat
  title : String
  authorName : String
  imageUrl : Option String
  price : ℚ
  discountPrice : Option ℚ
deriving DecidableEq, Repr

/-- `{ ...item, quantity }` — the payload built by the `addItem` creator. -/
def LineCandidate.toItem (c : LineCandidate) (quantity : Int) : CartItem :=
  { id := c.id, title := c.title, authorName := c.authorName
    imageUrl := c.imageUrl, price := c.price, discountPrice := c.discountPrice
    quantity := quantity }

/-- The `addItem` action creator: dispatches `ADD_ITEM`. -/
def addItem (state : CartState) (item : LineCandidate) (quantity : Int) : CartState :=
  cartReducer state (.add (item.toItem quantity))

/-- The `removeItem` action creator: dispatches `REMOVE_ITEM`. -/
def removeItem (state : CartState) (id : Nat) : CartState :=
  cartReducer state (.remove id)

/-- The `updateQuantity` action creator: dispatches `UPDATE_QUANTITY`. -/
def updateQuantity (state : CartState) (id : Nat) (quantity : Int) : CartState :=
  cartReducer state (.update id quantity)

/-- The `clearCart` action creator: dispatches `CLEAR_CART`. -/
def clearCart (state : CartState) : CartState :=
  cartReducer state .clear

/-- `isItemInCart`: `cart.items.some(item => item.id === id)`. -/
def isItemInCart (state : CartState) (id : Nat) : Bool :=
  state.items.any (fun item => item.id == id)

/-- `getCartItem`: `cart.items.find(item => item.id === id)`. -/
def getCartItem (state : CartState) (id : Nat) : Option CartItem :=
  state.items.find? (fun item => item.id == id)

/-- `getItemQuantity`: the found line's quantity, `0` if absent. -/
def getItemQuantity (state : CartState) (id : Nat) : Int :=
  match getCartItem state id with
  | some item => item.quantity
  | none => 0

/-! ### Derived-totals invariant (claim C1) -/

/-- `Σ quantity` over the lines, stated independently of `calculateTotals`. -/
def sumQuantities (items : List CartItem) : Int :=
  (items.map (fun item => item.quantity)).sum

/-- `Σ (discountPrice ?? unitPrice) × quantity`, stated independently of
`calculateTotals`. -/
def sumEffective (items : List CartItem) : ℚ :=
  (items.map (fun item => effectivePrice item * (item.quantity : ℚ))).sum

/-- The spec's derived-totals invariant on a cart state. -/
def totalsInvariant (state : CartState) : Prop :=
  state.totalItems = sumQuantities state.items ∧
  state.totalPrice = sumEffective state.items

theorem foldl_add_eq_sum {β : Type} [AddCommMonoid β] (f : CartItem → β) :
    ∀ (l : List CartItem) (a : β),
      l.foldl (fun t i => t + f i) a = a + (l.map f).sum := by
  intro l
  induction l with
  | nil => intro a; simp
  | cons x xs ih =>
    intro a
    simp only [List.foldl_cons, List.map_cons, List.sum_cons, ih, add_assoc]

theorem calculateTotals_totalItems (items : List CartItem) :
    (calculateTotals items).totalItems = sumQuantities items := by
  simpa [calculateTotals, sumQuantities] using
    foldl_add_eq_sum (fun item => item.quantity) items 0

theorem calculateTotals_totalPrice (items : List CartItem) :
    (calculateTotals items).totalPrice = sumEffective items := by
  simpa [calculateTotals, sumEffective] using
    foldl_add_eq_sum (fun item => effectivePrice item * (item.quantity : ℚ)) items 0

theorem totalsInvariant_stateFrom (items : List CartItem) :
    totalsInvariant (stateFrom items) :=
  ⟨calculateTotals_totalItems items, calculateTotals_totalPrice items⟩

/-! ### `addItem` and `updateQuantity` behaviour (claims C2, C3, C10) -/

theorem find?_addItemToItems (payload : CartItem) (items : List CartItem) :
    (addItemToItems payload items).find? (fun i => i.id == payload.id) =
      some (match items.find? (fun i => i.id == payload.id) with
            | some item => { item with quantity := item.quantity + payload.quantity }
            | none => payload) := by
  induction items with
  | nil => simp [addItemToItems]
  | cons x xs ih =>
    by_cases h : x.id = payload.id
    · simp [addItemToItems, h]
    · simp [addItemToItems, h, ih]

theorem addItemToItems_of_forall_ne (payload : CartItem) :
    ∀ items : List CartItem, (∀ i ∈ items, i.id ≠ payload.id) →
      addItemToItems payload items = items ++ [payload] := by
  intro items
  induction items with
  | nil => intro _; rfl
  | cons x xs ih =>
    intro h
    have hx : x.id ≠ payload.id := h x (List.mem_cons_self x xs)
    simp only [addItemToItems, if_neg hx, List.cons_append, List.cons.injEq, true_and]
    exact ih (fun i hi => h i (List.mem_cons_of_mem x hi))

theorem getItemQuantity_addItem (s : CartState) (c : LineCandidate) (q : Int) :
    getItemQuantity (addItem s c q) c.id = getItemQuantity s c.id + q := by
  have hfind := find?_addItemToItems (c.toItem q) s.items
  unfold getItemQuantity getCartItem addItem cartReducer stateFrom
  simp only []
  rw [show (c.toItem q).id = c.id from rfl] at hfind
  rw [hfind]
  cases h : s.items.find? (fun i => i.id == c.id) with
  | none => simp [LineCandidate.toItem]
  | some item => simp [LineCandidate.toItem]

theorem isItemInCart_false_iff (s : CartState) (id : Nat) :
    isItemInCart s id = false ↔ ∀ i ∈ s.items, i.id ≠ id := by
  unfold isItemInCart
  simp [List.any_eq_true]

/-- Corrected C2: there is no quantity cap anywhere in the Cart Store.  Adding
an existing id increases the first matching line's quantity by exactly `q`
(so two adds of `q1` and `q2` yield `q1 + q2`, not `min (q1+q2) 8`), and
adding an absent id appends a line whose quantity is exactly `q`
(not clamped into `[1, 8]`). -/
theorem addItem_no_cap (s : CartState) (c : LineCandidate) (q : Int) :
    getItemQuantity (addItem s c q) c.id = getItemQuantity s c.id + q ∧
    (isItemInCart s c.id = false → (addItem s c q).items = s.items ++ [c.toItem q]) := by
  refine ⟨getItemQuantity_addItem s c q, fun habs => ?_⟩
  have h := (isItemInCart_false_iff s c.id).mp habs
  unfold addItem cartReducer stateFrom
  simp only []
  exact addItemToItems_of_forall_ne (c.toItem q) s.items h

/-- A concrete line candidate used by the concrete-instance theorems. -/
def sampleCandidate : LineCandidate :=
  { id := 1, title := "Dune", authorName := "Frank Herbert"
    imageUrl := none, price := 10, discountPrice := none }

/-- A second concrete candidate (with a discount price). -/
def sampleCandidate2 : LineCandidate :=
  { id := 2, title := "Emma", authorName := "Jane Austen"
    imageUrl := some "http://img/2.png", price := 15, discountPrice := some 8 }

/-- C2 counterexample: starting from the empty cart, `addItem(x, 5)` twice with
the same id yields a line with quantity `10`, not `min (5+5) 8 = 8`; the Cart
Store does not cap at `MAX_LINE_QTY`. -/
theorem addItem_cap_counterexample :
    getItemQuantity (addItem (addItem initialState sampleCandidate 5) sampleCandidate 5) 1 = 10 ∧
    (10 : Int) ≠ min (5 + 5) 8 := by
  constructor
  · decide
  · decide

/-- Witness for `addItem_no_cap` at a concrete input. -/
theorem addItem_no_cap_witness :
    getItemQuantity (addItem initialState sampleCandidate 3) 1 =
      getItemQuantity initialState 1 + 3 ∧
    (addItem initialState sampleCandidate 3).items =
      initialState.items ++ [sampleCandidate.toItem 3] :=
  ⟨(addItem_no_cap initialState sampleCandidate 3).1,
   (addItem_no_cap initialState sampleCandidate 3).2 (by decide)⟩

/-- Corrected C3: `updateQuantity` with `q ≤ 0` is exactly `removeItem`; with
`q > 0` it replaces every matching line's quantity in place by `q` itself —
no clamping to `[1, 8]` — and leaves the rest of the list (and its order)
untouched. -/
theorem updateQuantity_spec (s : CartState) (id : Nat) (q : Int) :
    (q ≤ 0 → updateQuantity s id q = removeItem s id) ∧
    (0 < q → ∀ k, (updateQuantity s id q).items.get? k =
      (s.items.get? k).map (fun item =>
        if item.id = id then { item with quantity := q } else item)) := by
  constructor
  · intro h
    simp only [updateQuantity, removeItem, cartReducer, if_pos h]
  · intro h k
    simp only [updateQuantity, cartReducer, if_neg (not_le.mpr h), stateFrom,
      List.get?_map]

/-- A concrete one-line cart. -/
def cart1 : CartState := addItem initialState sampleCandidate 1

/-- C3 counterexample: `updateQuantity(id, 100)` leaves the line with quantity
`100`, not the claimed clamp to `8`. -/
theorem updateQuantity_clamp_counterexample :
    getItemQuantity (updateQuantity cart1 1 100) 1 = 100 ∧ (100 : Int) ≠ 8 := by
  constructor
  · decide
  · decide

/-- Witness for `updateQuantity_spec` at concrete inputs. -/
theorem updateQuantity_spec_witness :
    updateQuantity cart1 1 0 = removeItem cart1 1 ∧
    (updateQuantity cart1 1 2).items.get? 0 =
      (cart1.items.get? 0).map (fun item =>
        if item.id = 1 then { item with quantity := 2 } else item) :=
  ⟨(updateQuantity_spec cart1 1 0).1 (by decide),
   (updateQuantity_spec cart1 1 2).2 (by decide) 0⟩

theorem map_eq_self_of_id_ne (pid : Nat) (p : CartItem) :
    ∀ items : List CartItem, (∀ i ∈ items, i.id ≠ pid) →
      items.map (fun item =>
        if item.id = pid then { item with quantity := item.quantity + p.quantity } else item) =
        items := by
  intro items
  induction items with
  | nil => intro _; rfl
  | cons x xs ih =>
    intro h
    have hx : x.id ≠ pid := h x (List.mem_cons_self x xs)
    simp only [List.map_cons, if_neg hx, List.cons.injEq, true_and]
    exact ih (fun i hi => h i (List.mem_cons_of_mem x hi))

theorem addItemToItems_eq_map (payload : CartItem) :
    ∀ items : List CartItem, (∃ i ∈ items, i.id = payload.id) →
      ((items.map (fun i => i.id)).Nodup) →
      addItemToItems payload items = items.map (fun item =>
        if item.id = payload.id then
          { item with quantity := item.quantity + payload.quantity }
        else item) := by
  intro items
  induction items with
  | nil => intro hmem _; obtain ⟨i, hi, _⟩ := hmem; cases hi
  | cons x xs ih =>
    intro hmem hnd
    simp only [List.map_cons, List.nodup_cons, List.mem_map] at hnd
    by_cases hx : x.id = payload.id
    · have hxs : ∀ i ∈ xs, i.id ≠ payload.id := by
        intro i hi hcontra
        exact hnd.1 ⟨i, hi, by rw [hcontra, hx]⟩
      simp only [addItemToItems, if_pos hx, List.map_cons, List.cons.injEq, true_and]
      exact (map_eq_self_of_id_ne payload.id payload xs hxs).symm
    · obtain ⟨i, hi, hid⟩ := hmem
      have hixs : i ∈ xs := by
        cases List.mem_cons.mp hi with
        | inl h => exact absurd (h ▸ hid) hx
        | inr h => exact h
      simp only [addItemToItems, if_neg hx, List.map_cons, List.cons.injEq, true_and]
      exact ih ⟨i, hixs, hid⟩ hnd.2

/-- C10: when a line with the candidate's id already exists (ids being unique,
per the data-model invariant), `addItem` changes only that line's quantity:
the stored title, author, image, unit price and discount price all come from
the existing line (the candidate's values are ignored), and every other line —
and the overall order — is untouched. -/
theorem addItem_existing_frame (s : CartState) (c : LineCandidate) (q : Int)
    (hmem : isItemInCart s c.id = true)
    (hnd : (s.items.map (fun i => i.id)).Nodup) :
    ∀ k, (addItem s c q).items.get? k =
      (s.items.get? k).map (fun item =>
        if item.id = c.id then { item with quantity := item.quantity + q } else item) := by
  intro k
  have hmem' : ∃ i ∈ s.items, i.id = c.id := by
    unfold isItemInCart at hmem
    simpa using List.any_eq_true.mp hmem
  have h := addItemToItems_eq_map (c.toItem q) s.items hmem' hnd
  unfold addItem cartReducer stateFrom
  simp only []
  rw [h, List.get?_map]
  rfl

/-- A concrete two-line cart (`sampleCandidate` then `sampleCandidate2`). -/
def cart2 : CartState := addItem (addItem initialState sampleCandidate 1) sampleCandidate2 2

/-- Witness for `addItem_existing_frame` at a concrete input. -/
theorem addItem_existing_frame_witness :
    (addItem cart2 sampleCandidate 3).items.get? 0 =
      (cart2.items.get? 0).map (fun item =>
        if item.id = 1 then { item with quantity := item.quantity + 3 } else item) :=
  addItem_existing_frame cart2 sampleCandidate 3 (by decide) (by decide) 0

/-- C1: after every Cart Store mutation — from any starting state, hence after
every call of any sequence of `addItem` / `removeItem` / `updateQuantity` /
`clearCart` — `totalItems` equals the sum of the line quantities and
`totalPrice` equals the sum of `(discountPrice ?? unitPrice) × quantity`. -/
theorem cartReducer_preserves_totalsInvariant (state : CartState) (action : CartAction) :
    totalsInvariant (cartReducer state action) := by
  cases action with
  | add payload => exact totalsInvariant_stateFrom _
  | remove id => exact totalsInvariant_stateFrom _
  | update id quantity =>
    by_cases h : quantity ≤ 0
    · simp only [cartReducer, if_pos h]
      exact totalsInvariant_stateFrom _
    · simp only [cartReducer, if_neg h]
      exact totalsInvariant_stateFrom _
  | clear =>
    exact ⟨rfl, rfl⟩

/-! ### JSON values and the Persistence Adapter (claims C6, C7)

`localStorage` holds strings; the code stores `JSON.stringify(cart)` and reads
it back with `JSON.parse`.  A stored string is modelled by what `JSON.parse`
does to it — `Except Unit JsValue`: `.error ()` for a malformed record (the
parser throws), `.ok v` for a record that parses to the JSON value `v`.
`JSON.parse (JSON.stringify x)` is the identity on JSON values (none of the
cart's fields can be `undefined` in the serialized output, `stringify`
omitting absent optional properties), so `save` stores `.ok` of the cart's
JSON image. -/

/-- A JavaScript JSON value. -/
inductive JsValue where
  | null
  | bool (b : Bool)
  | num (q : ℚ)
  | str (s : String)
  | arr (elems : List JsValue)
  | obj (fields : List (String × JsValue))

/-- Property access `v[k]` on a parsed value: `none` models `undefined`. -/
def jsGet (v : JsValue) (key : String) : Option JsValue :=
  match v with
  | .obj fields => fields.lookup key
  | _ => none

/-- JavaScript truthiness of a JSON value (`NaN` cannot occur in parsed JSON). -/
def truthy : JsValue → Bool
  | .null => false
  | .bool b => b
  | .num q => decide (q ≠ 0)
  | .str s => decide (s ≠ "")
  | .arr _ => true
  | .obj _ => true

/-- The JSON image of one cart line.  `JSON.stringify` omits properties whose
value is `undefined`, so the two optional fields appear only when present. -/
def itemToJs (item : CartItem) : JsValue :=
  .obj ([("id", .num (item.id : ℚ)),
         ("title", .str item.title),
         ("authorName", .str item.authorName)] ++
        (match item.imageUrl with
         | some u => [("imageUrl", .str u)]
         | none => []) ++
        [("price", .num item.price)] ++
        (match item.discountPrice with
         | some d => [("discountPrice", .num d)]
         | none => []) ++
        [("quantity", .num (item.quantity : ℚ))])

/-- The JSON image of a whole `CartState`. -/
def cartToJs (state : CartState) : JsValue :=
  .obj [("items", .arr (state.items.map itemToJs)),
        ("totalItems", .num (state.totalItems : ℚ)),
        ("totalPrice", .num state.totalPrice)]

/-- The durable record under the `bookworm-cart` key, represented by its
`JSON.parse` outcome; `none` is an absent record. -/
def StoredRecord : Type := Option (Except Unit JsValue)

/-- `saveCartToLocalStorage`: `localStorage.setItem('bookworm-cart',
JSON.stringify(cart))` — the record afterwards reparses to exactly the
cart's JSON image. -/
def saveCartToLocalStorage (cart : CartState) : StoredRecord :=
  some (.ok (cartToJs cart))

/-- `loadCartFromLocalStorage`: `savedCart ? JSON.parse(savedCart) :
initialState`.  The parse result is returned as-is, with no structural check;
a parse failure propagates (`.error`).  (An empty stored string is falsy in
JS and also lands in the `initialState` branch; it is covered by the absent
case of the model.) -/
def loadCartFromLocalStorage (savedCart : StoredRecord) : Except Unit JsValue :=
  match savedCart with
  | some (.ok v) => .ok v
  | some (.error e) => .error e
  | none => .ok (cartToJs initialState)

/-! Reading a parsed JSON value back as a `CartState` — the structural view the
rest of the code takes of the loaded value (there is no explicit decoder in
the source; these definitions spell out the property accesses the cart's
consumers perform, so that `load(save s) == s` can be stated as state
equality). -/

/-- A JSON number read back as an `Int` (JS integers round-trip exactly). -/
def jsToInt? : JsValue → Option Int
  | .num q => if q.den = 1 then some q.num else none
  | _ => none

/-- A JSON number read back as a `Nat` id. -/
def jsToNat? (v : JsValue) : Option Nat :=
  match jsToInt? v with
  | some n => if 0 ≤ n then some n.toNat else none
  | none => none

/-- A JSON number read back as a price. -/
def jsToNum? : JsValue → Option ℚ
  | .num q => some q
  | _ => none

/-- A JSON string read back. -/
def jsToStr? : JsValue → Option String
  | .str s => some s
  | _ => none

/-- One line read back from its JSON image. -/
def jsToItem? (v : JsValue) : Option CartItem :=
  match (jsGet v "id").bind jsToNat?, (jsGet v "title").bind jsToStr?,
        (jsGet v "authorName").bind jsToStr?, (jsGet v "price").bind jsToNum?,
        (jsGet v "quantity").bind jsToInt? with
  | some id, some title, some authorName, some price, some quantity =>
    some { id := id, title := title, authorName := authorName
           imageUrl := (jsGet v "imageUrl").bind jsToStr?
           price := price
           discountPrice := (jsGet v "discountPrice").bind jsToNum?
           quantity := quantity }
  | _, _, _, _, _ => none

/-- The element-wise reading of the `items` array. -/
def jsToItems? : List JsValue → Option (List CartItem)
  | [] => some []
  | v :: rest =>
    match jsToItem? v, jsToItems? rest with
    | some item, some items => some (item :: items)
    | _, _ => none

/-- A whole `CartState` read back from its JSON image. -/
def jsToCart? (v : JsValue) : Option CartState :=
  match jsGet v "items" with
  | some (.arr elems) =>
    match jsToItems? elems, (jsGet v "totalItems").bind jsToInt?,
          (jsGet v "totalPrice").bind jsToNum? with
    | some items, some totalItems, some totalPrice =>
      some { items := items, totalItems := totalItems, totalPrice := totalPrice }
    | _, _, _ => none
  | _ => none

theorem jsToInt?_intCast (n : Int) : jsToInt? (.num (n : ℚ)) = some n := by
  simp [jsToInt?, Rat.den_intCast, Rat.num_intCast]

theorem jsToNat?_natCast (n : Nat) : jsToNat? (.num (n : ℚ)) = some n := by
  simp [jsToNat?, jsToInt?, Rat.den_natCast, Rat.num_natCast, Int.toNat_natCast]

theorem jsToItem?_itemToJs (item : CartItem) : jsToItem? (itemToJs item) = some item := by
  obtain ⟨id, title, authorName, imageUrl, price, discountPrice, quantity⟩ := item
  cases imageUrl <;> cases discountPrice <;>
    simp [jsToItem?, itemToJs, jsGet, jsToNum?, jsToStr?, jsToNat?_natCast,
      jsToInt?_intCast, List.lookup]

theorem jsToItems?_map (items : List CartItem) :
    jsToItems? (items.map itemToJs) = some items := by
  induction items with
  | nil => rfl
  | cons item rest ih => simp [jsToItems?, jsToItem?_itemToJs, ih]

/-- C7: the persistence round trip.  Saving stores the cart's JSON image and
loading hands that very value back (`load (save s) = .ok (cartToJs s)`), and
the image determines the original state exactly: reading its fields back as a
`CartState` recovers `s` — for every cart the store can produce, empty,
single-line or multi-line, discounts or not. -/
theorem load_save_roundtrip (s : CartState) :
    loadCartFromLocalStorage (saveCartToLocalStorage s) = .ok (cartToJs s) ∧
    jsToCart? (cartToJs s) = some s := by
  refine ⟨rfl, ?_⟩
  obtain ⟨items, totalItems, totalPrice⟩ := s
  simp [jsToCart?, cartToJs, jsGet, jsToItems?_map, jsToInt?_intCast, jsToNum?,
    List.lookup]

/-- C6 counterexample: a malformed durable record makes `load` raise — the
`JSON.parse` failure propagates instead of the claimed fallback to the empty
cart — and a parseable record of the wrong shape is returned as-is, with no
structural check turning it into the empty `CartState` (it is not the JSON
image of any cart: reading it back as a cart fails). -/
theorem load_malformed_counterexample :
    loadCartFromLocalStorage (some (.error ())) = .error () ∧
    loadCartFromLocalStorage (some (.ok (.str "junk"))) = .ok (.str "junk") ∧
    jsToCart? (.str "junk") = none :=
  ⟨rfl, rfl, rfl⟩

/-- Corrected C6: `load` returns the empty `CartState` only when the record is
absent; a present, parseable record is returned without any structural
validation, and a malformed record raises the parse error to the caller. -/
theorem load_behaviour (saved : StoredRecord) :
    (saved = none → loadCartFromLocalStorage saved = .ok (cartToJs initialState)) ∧
    (∀ v, saved = some (.ok v) → loadCartFromLocalStorage saved = .ok v) ∧
    (∀ e, saved = some (.error e) → loadCartFromLocalStorage saved = .error e) :=
  ⟨fun h => by rw [h]; rfl, fun v h => by rw [h]; rfl, fun e h => by rw [h]; rfl⟩

/-- Witness for `load_behaviour` at concrete records. -/
theorem load_behaviour_witness :
    loadCartFromLocalStorage none = .ok (cartToJs initialState) ∧
    loadCartFromLocalStorage (some (.ok (.num 3))) = .ok (.num 3) ∧
    loadCartFromLocalStorage (some (.error ())) = .error () :=
  ⟨(load_behaviour none).1 rfl,
   (load_behaviour (some (.ok (.num 3)))).2.1 _ rfl,
   (load_behaviour (some (.error ()))).2.2 () rfl⟩

/-! ### Checkout reconciliation and order submission (claims C4, C5, C8, C9)

Embedding of `handlePlaceOrder` from the `CartPage` component in
`src/unnamed/part_011`.  The fan-out of `bookwormApi.getBook` calls settles
into one tagged result per line (`Promise.all` over `.then/.catch`-wrapped
promises); the settled results are modelled by a per-line function into
`Except FetchError BookResponse`. -/

/-- The fields of the fetched `BookResponse` that reconciliation reads
(`book_price` as the number `parseFloat` yields, `discount_price` already
converted the same way, `undefined` when the field is absent/falsy). -/
structure BookResponse where
  book_title : String
  book_price : ℚ
  discount_price : Option ℚ
deriving DecidableEq, Repr

/-- A failed lookup: either an HTTP error (carrying `response.status` and the
`Error` message) or a plain JS `Error` (network failure, malformed response). -/
inductive FetchError where
  | http (status : Nat) (message : String)
  | jsFailure (message : String)
deriving DecidableEq, Repr

/-- `needle` occurs as a substring of `hay` (model of `String.includes`). -/
def stringIncludes (hay needle : String) : Bool :=
  (List.range (hay.length + 1)).any (fun k => needle.data.isPrefixOf (hay.data.drop k))

/-- The not-found test of the catch branch: `error?.response?.status === 404`,
or the error message (lowercased) contains `"not found"`. -/
def isNotFoundError : FetchError → Bool
  | .http status message => status == 404 || stringIncludes message.toLower "not found"
  | .jsFailure message => stringIncludes message.toLower "not found"

/-- `Number.toFixed(2)` — modelled as exact half-up rounding to cents (the
float version's tie behaviour is not modelled; the theorems below only ever
count these messages). -/
def toFixed2 (q : ℚ) : String :=
  let cents : Int := ⌊q * 100 + 1 / 2⌋
  let sign := if cents < 0 then "-" else ""
  let a := cents.natAbs
  let frac := a % 100
  sign ++ toString (a / 100) ++ "." ++
    (if frac < 10 then "0" ++ toString frac else toString frac)

/-- Whether the fetched data differs from the cached line: the source sets
`itemUpdated` when the unit price, the discount price or the title differ. -/
def itemUpdated (item : CartItem) (book : BookResponse) : Bool :=
  decide (item.price ≠ book.book_price) ||
  decide (item.discountPrice ≠ book.discount_price) ||
  decide (item.title ≠ book.book_title)

/-- The `updateReason` string accumulated for a drifted line. -/
def driftReason (item : CartItem) (book : BookResponse) : String :=
  let priceOld := toFixed2 item.price
  let priceNew := toFixed2 book.book_price
  let r1 :=
    if item.price ≠ book.book_price then
      s!" Price changed from ${priceOld} to ${priceNew}."
    else ""
  let r2 :=
    if item.discountPrice ≠ book.discount_price then
      match item.discountPrice, book.discount_price with
      | none, some d =>
        let dNew := toFixed2 d
        s!" Now on sale for ${dNew}."
      | some o, none =>
        let dOld := toFixed2 o
        s!" No longer on sale (was ${dOld})."
      | some o, some d =>
        let dOld := toFixed2 o
        let dNew := toFixed2 d
        s!" Sale price changed from ${dOld} to ${dNew}."
      | none, none => ""
    else ""
  let r3 := if item.title ≠ book.book_title then " Title updated." else ""
  r1 ++ r2 ++ r3

/-- The message pushed for a drifted line: `"<title>":<reason>`. -/
def driftMessage (item : CartItem) (book : BookResponse) : String :=
  let t := item.title
  let r := driftReason item book
  s!"\"{t}\":{r}"

/-- The message pushed for a removed (not-found) line. -/
def removedMessage (item : CartItem) : String :=
  let t := item.title
  s!"\"{t}\" is no longer available and has been removed from your cart."

/-- The message pushed for an unverifiable line. -/
def unverifiableMessage (item : CartItem) : String :=
  let t := item.title
  s!"Could not verify \"{t}\". Please check your connection or try again later."

/-- A line counts as *Unchanged* when its lookup succeeded and no compared
field differs — exactly the condition under which the `forEach` body leaves
all flags alone for that line. -/
def lineUnchanged (item : CartItem) : Except FetchError BookResponse → Bool
  | .ok book => !(itemUpdated item book)
  | .error _ => false

/-- A line counts as *Removed* when its lookup failed with a not-found error. -/
def removedLine : Except FetchError BookResponse → Bool
  | .ok _ => false
  | .error e => isNotFoundError e

/-- The mutable accumulators of the `results.forEach` loop. -/
structure ValidationAcc where
  cartNeedsUpdate : Bool
  itemsToRemove : List Nat
  validationMessages : List String
deriving DecidableEq, Repr

/-- One iteration of the `forEach` body over a settled result. -/
def processResult (acc : ValidationAcc) :
    CartItem × Except FetchError BookResponse → ValidationAcc
  | (item, .ok book) =>
    if itemUpdated item book then
      { acc with cartNeedsUpdate := true
                 validationMessages := acc.validationMessages ++ [driftMessage item book] }
    else acc
  | (item, .error e) =>
    if isNotFoundError e then
      { cartNeedsUpdate := true
        itemsToRemove := acc.itemsToRemove ++ [item.id]
        validationMessages := acc.validationMessages ++ [removedMessage item] }
    else
      { acc with cartNeedsUpdate := true
                 validationMessages := acc.validationMessages ++ [unverifiableMessage item] }

/-- The whole `forEach` loop, starting from the initial flag values. -/
def processResults (results : List (CartItem × Except FetchError BookResponse)) :
    ValidationAcc :=
  results.foldl processResult
    { cartNeedsUpdate := false, itemsToRemove := [], validationMessages := [] }

/-- `OrderItemCreate` of `lib/types.ts`: the order request carries id and
quantity only — no price field exists in the type. -/
structure OrderItemCreate where
  book_id : Nat
  quantity : Int
deriving DecidableEq, Repr

/-- `OrderItemResponse` of `lib/types.ts`. -/
structure OrderItemResponse where
  id : Nat
  order_id : Nat
  book_id : Nat
  quantity : Int
  price : String
deriving DecidableEq, Repr

/-- `OrderResponse` of `lib/types.ts`. -/
structure OrderResponse where
  id : Nat
  user_id : Nat
  order_date : String
  order_amount : String
  items : List OrderItemResponse
deriving DecidableEq, Repr

/-- The error `createOrder` rejects with, as the catch block of
`handlePlaceOrder` discriminates it: an error carrying a `.response` whose
`json()` either parses to a body or fails; a plain `Error` with a message; or
anything else. -/
inductive OrderApiError where
  | httpError (body : Except Unit JsValue)
  | jsError (message : String)
  | otherError

/-- The fixed fallback message. -/
def defaultOrderErrorMessage : String := "Failed to place order. Please try again."

/-- `v` is a JSON string. -/
def JsValue.isStr : JsValue → Bool
  | .str _ => true
  | _ => false

/-- Character escaping of `JSON.stringify` (control characters other than the
common ones are not modelled; none occur in these theorems). -/
def escapeJsonChar (c : Char) : String :=
  if c = '"' then "\\\""
  else if c = '\\' then "\\\\"
  else if c = '\n' then "\\n"
  else if c = '\t' then "\\t"
  else if c = '\r' then "\\r"
  else String.singleton c

/-- String escaping of `JSON.stringify`. -/
def escapeJsonString (s : String) : String :=
  s.data.foldl (fun acc c => acc ++ escapeJsonChar c) ""

/-- Number rendering of `JSON.stringify`: exact for integers (the only
numbers the theorems below serialize); non-integral rationals are rendered
as a fraction, standing in for the decimal expansion JS would print. -/
def renderJsonNum (q : ℚ) : String :=
  if q.den = 1 then toString q.num else toString q.num ++ "/" ++ toString q.den

mutual

/-- `JSON.stringify` on a JSON value. -/
def jsStringify : JsValue → String
  | .null => "null"
  | .bool b => if b then "true" else "false"
  | .num q => renderJsonNum q
  | .str s => "\"" ++ escapeJsonString s ++ "\""
  | .arr elems => "[" ++ jsStringifyElems elems ++ "]"
  | .obj fields => "\x7b" ++ jsStringifyFields fields ++ "\x7d"

/-- Comma-separated serialization of array elements. -/
def jsStringifyElems : List JsValue → String
  | [] => ""
  | [v] => jsStringify v
  | v :: rest => jsStringify v ++ "," ++ jsStringifyElems rest

/-- Comma-separated serialization of object fields. -/
def jsStringifyFields : List (String × JsValue) → String
  | [] => ""
  | [(k, v)] => "\"" ++ escapeJsonString k ++ "\":" ++ jsStringify v
  | (k, v) :: rest =>
    "\"" ++ escapeJsonString k ++ "\":" ++ jsStringify v ++ "," ++ jsStringifyFields rest

end

/-- The order-failure catch block of `handlePlaceOrder`: start from the
fallback; when the error has a `.response` with a parseable body whose
`detail` is truthy, use the detail (as-is when a string, `JSON.stringify`-ed
otherwise); when there is no `.response` but the error is an `Error`, use its
message; otherwise keep the fallback. -/
def translateOrderError : OrderApiError → String
  | .httpError (.error _) => defaultOrderErrorMessage
  | .httpError (.ok body) =>
    match jsGet body "detail" with
    | some d =>
      if truthy d then
        match d with
        | .str s => s
        | _ => jsStringify d
      else defaultOrderErrorMessage
    | none => defaultOrderErrorMessage
  | .jsError message => message
  | .otherError => defaultOrderErrorMessage

/-- What `handlePlaceOrder` reported to the UI when it returned. -/
inductive OrderOutcome where
  | signInRequired
  | emptyCartError (message : String)
  | cartUpdated (messages : List String)
  | orderPlaced (order : OrderResponse)
  | orderFailed (message : String)
deriving DecidableEq, Repr

/-- The observable effect of one `handlePlaceOrder` run: the cart it leaves
behind, the outcome surfaced to the UI, and the request sent to the order
endpoint, if any. -/
structure PlaceOrderResult where
  cart : CartState
  outcome : OrderOutcome
  submitted : Option (List OrderItemCreate)
deriving DecidableEq, Repr

/-- `handlePlaceOrder` of the `CartPage` in `src/unnamed/part_011`:
auth gate, empty-cart gate, fan-out lookups over the snapshot, the
`forEach` classification, then either the removal-and-report branch
(`removeItem` per not-found id, messages surfaced, no submission) or the
submission branch (success clears the cart via `clearCart`; failure leaves
it untouched and surfaces one translated message). -/
def handlePlaceOrder (isAuthenticated : Bool) (token : Option String)
    (cart : CartState)
    (lookup : CartItem → Except FetchError BookResponse)
    (submit : List OrderItemCreate → Except OrderApiError OrderResponse) :
    PlaceOrderResult :=
  if !isAuthenticated || token.isNone then
    { cart := cart, outcome := .signInRequired, submitted := none }
  else if cart.items.length = 0 then
    { cart := cart, outcome := .emptyCartError "Your cart is empty.", submitted := none }
  else
    let results := cart.items.map (fun item => (item, lookup item))
    let acc := processResults results
    if acc.cartNeedsUpdate then
      { cart := acc.itemsToRemove.foldl removeItem cart
        outcome := .cartUpdated acc.validationMessages
        submitted := none }
    else
      let orderItems := cart.items.map (fun item =>
        { book_id := item.id, quantity := item.quantity : OrderItemCreate })
      match submit orderItems with
      | .ok order =>
        { cart := clearCart cart, outcome := .orderPlaced order, submitted := some orderItems }
      | .error e =>
        { cart := cart, outcome := .orderFailed (translateOrderError e), submitted := some orderItems }

theorem processResult_cartNeedsUpdate (acc : ValidationAcc)
    (r : CartItem × Except FetchError BookResponse) :
    (processResult acc r).cartNeedsUpdate =
      (acc.cartNeedsUpdate || !(lineUnchanged r.1 r.2)) := by
  obtain ⟨item, res⟩ := r
  cases res with
  | ok book => cases hb : itemUpdated item book <;> simp [processResult, lineUnchanged, hb]
  | error e => cases hn : isNotFoundError e <;> simp [processResult, lineUnchanged, hn]

theorem foldl_processResult_cartNeedsUpdate
    (rs : List (CartItem × Except FetchError BookResponse)) :
    ∀ acc : ValidationAcc,
      (rs.foldl processResult acc).cartNeedsUpdate =
        (acc.cartNeedsUpdate || rs.any (fun r => !(lineUnchanged r.1 r.2))) := by
  induction rs with
  | nil => intro acc; simp
  | cons r rest ih =>
    intro acc
    simp [List.foldl_cons, ih, processResult_cartNeedsUpdate, Bool.or_assoc]

theorem processResult_itemsToRemove (acc : ValidationAcc)
    (r : CartItem × Except FetchError BookResponse) :
    (processResult acc r).itemsToRemove =
      acc.itemsToRemove ++ (if removedLine r.2 then [r.1.id] else []) := by
  obtain ⟨item, res⟩ := r
  cases res with
  | ok book => cases hb : itemUpdated item book <;> simp [processResult, removedLine, hb]
  | error e => cases hn : isNotFoundError e <;> simp [processResult, removedLine, hn]

theorem foldl_processResult_itemsToRemove
    (rs : List (CartItem × Except FetchError BookResponse)) :
    ∀ acc : ValidationAcc,
      (rs.foldl processResult acc).itemsToRemove =
        acc.itemsToRemove ++ (rs.filter (fun r => removedLine r.2)).map (fun r => r.1.id) := by
  induction rs with
  | nil => intro acc; simp
  | cons r rest ih =>
    intro acc
    rw [List.foldl_cons, ih, processResult_itemsToRemove]
    cases hr : removedLine r.2 <;> simp [List.filter_cons, hr]

theorem processResult_messages_length (acc : ValidationAcc)
    (r : CartItem × Except FetchError BookResponse) :
    (processResult acc r).validationMessages.length =
      acc.validationMessages.length + (if lineUnchanged r.1 r.2 then 0 else 1) := by
  obtain ⟨item, res⟩ := r
  cases res with
  | ok book => cases hb : itemUpdated item book <;> simp [processResult, lineUnchanged, hb]
  | error e => cases hn : isNotFoundError e <;> simp [processResult, lineUnchanged, hn]

theorem foldl_processResult_messages_length
    (rs : List (CartItem × Except FetchError BookResponse)) :
    ∀ acc : ValidationAcc,
      (rs.foldl processResult acc).validationMessages.length =
        acc.validationMessages.length +
          (rs.filter (fun r => !(lineUnchanged r.1 r.2))).length := by
  induction rs with
  | nil => intro acc; simp
  | cons r rest ih =>
    intro acc
    rw [List.foldl_cons, ih, processResult_messages_length]
    cases hr : lineUnchanged r.1 r.2 <;> (simp [List.filter_cons, hr]; try omega)

theorem any_map_pair (items : List CartItem)
    (lookup : CartItem → Except FetchError BookResponse)
    (p : CartItem × Except FetchError BookResponse → Bool) :
    (items.map (fun item => (item, lookup item))).any p =
      items.any (fun item => p (item, lookup item)) := by
  induction items with
  | nil => rfl
  | cons item rest ih => simp [ih]

/-- `cartNeedsUpdate` after the loop is exactly "some line is not Unchanged". -/
theorem processResults_cartNeedsUpdate (items : List CartItem)
    (lookup : CartItem → Except FetchError BookResponse) :
    (processResults (items.map (fun item => (item, lookup item)))).cartNeedsUpdate =
      items.any (fun item => !(lineUnchanged item (lookup item))) := by
  unfold processResults
  rw [foldl_processResult_cartNeedsUpdate]
  simp [any_map_pair]

theorem foldl_removeItem_items :
    ∀ (ids : List Nat) (s : CartState),
      (ids.foldl removeItem s).items =
        s.items.filter (fun item => decide (¬ item.id ∈ ids)) := by
  intro ids
  induction ids with
  | nil => intro s; simp
  | cons id rest ih =>
    intro s
    rw [List.foldl_cons, ih]
    simp only [removeItem, cartReducer, removeItemFromState, stateFrom, List.filter_filter]
    refine List.filter_congr ?_
    intro item _
    by_cases h : item.id = id <;> by_cases h2 : item.id ∈ rest <;> simp [h, h2]

/-- `handlePlaceOrder` past the auth and empty-cart gates. -/
theorem handlePlaceOrder_authed (token : String) (cart : CartState)
    (lookup : CartItem → Except FetchError BookResponse)
    (submit : List OrderItemCreate → Except OrderApiError OrderResponse)
    (hne : cart.items ≠ []) :
    handlePlaceOrder true (some token) cart lookup submit =
      (let acc := processResults (cart.items.map (fun item => (item, lookup item)))
       if acc.cartNeedsUpdate then
         { cart := acc.itemsToRemove.foldl removeItem cart
           outcome := .cartUpdated acc.validationMessages
           submitted := none }
       else
         let orderItems := cart.items.map (fun item =>
           { book_id := item.id, quantity := item.quantity : OrderItemCreate })
         match submit orderItems with
         | .ok order =>
           { cart := clearCart cart, outcome := .orderPlaced order
             submitted := some orderItems }
         | .error e =>
           { cart := cart, outcome := .orderFailed (translateOrderError e)
             submitted := some orderItems }) := by
  have hlen : ¬ cart.items.length = 0 := by
    simpa [List.length_eq_zero] using hne
  unfold handlePlaceOrder
  rw [if_neg (by simp), if_neg hlen]

/-- C4: with an authenticated credential and a non-empty cart, the run submits
an order if and only if every snapshot line is Unchanged (lookup succeeded,
and the fetched title, unit price and discount price all equal the cached
ones); the request it then submits is exactly the `{book_id, quantity}` pairs
of the lines — the `OrderItemCreate` type carries no price at all. -/
theorem reconciliation_pass_iff_submit (token : String) (cart : CartState)
    (lookup : CartItem → Except FetchError BookResponse)
    (submit : List OrderItemCreate → Except OrderApiError OrderResponse)
    (hne : cart.items ≠ []) :
    ((∀ item ∈ cart.items, lineUnchanged item (lookup item) = true) →
      (handlePlaceOrder true (some token) cart lookup submit).submitted =
        some (cart.items.map (fun item =>
          { book_id := item.id, quantity := item.quantity : OrderItemCreate }))) ∧
    ((¬ ∀ item ∈ cart.items, lineUnchanged item (lookup item) = true) →
      (handlePlaceOrder true (some token) cart lookup submit).submitted = none) := by
  rw [handlePlaceOrder_authed token cart lookup submit hne]
  constructor
  · intro hall
    have hcnu : (processResults (cart.items.map (fun item =>
        (item, lookup item)))).cartNeedsUpdate = false := by
      rw [processResults_cartNeedsUpdate, List.any_eq_false]
      intro item hmem
      simp [hall item hmem]
    simp only [hcnu, Bool.false_eq_true, if_false]
    cases hsub : submit (cart.items.map (fun item =>
        { book_id := item.id, quantity := item.quantity : OrderItemCreate })) with
    | ok order => simp [hsub]
    | error e => simp [hsub]
  · intro hnall
    have hcnu : (processResults (cart.items.map (fun item =>
        (item, lookup item)))).cartNeedsUpdate = true := by
      rw [processResults_cartNeedsUpdate, List.any_eq_true]
      push_neg at hnall
      obtain ⟨item, hmem, hne'⟩ := hnall
      refine ⟨item, hmem, ?_⟩
      simp only [Bool.not_eq_true] at hne'
      simp [hne']
    simp [hcnu]

/-- Concrete data: the cached line of reconciliation scenario A. -/
def candidate7 : LineCandidate :=
  { id := 7, title := "Book Seven", authorName := "Author A"
    imageUrl := none, price := 10, discountPrice := none }

/-- A second cached line (for the failure scenario). -/
def candidate9 : LineCandidate :=
  { id := 9, title := "Book Nine", authorName := "Author B"
    imageUrl := none, price := 15, discountPrice := none }

/-- One line, id 7, cached price $10, quantity 2. -/
def cartA : CartState := addItem initialState candidate7 2

/-- Two lines: id 7 ($10, qty 2) and id 9 ($15, qty 1). -/
def cartB : CartState := addItem (addItem initialState candidate7 2) candidate9 1

/-- A lookup that returns every line's cached data unchanged. -/
def lookupUnchanged : CartItem → Except FetchError BookResponse :=
  fun item => .ok { book_title := item.title, book_price := item.price
                    discount_price := item.discountPrice }

/-- Scenario B lookup: id 7 comes back at $12 (drifted), id 9 is not found. -/
def lookupB : CartItem → Except FetchError BookResponse :=
  fun item =>
    if item.id = 7 then
      .ok { book_title := item.title, book_price := 12
            discount_price := item.discountPrice }
    else
      .error (.http 404 "Request failed with status code 404 Not Found")

/-- A fixed order confirmation. -/
def orderA : OrderResponse :=
  { id := 42, user_id := 1, order_date := "2025-01-01T00:00:00Z"
    order_amount := "20.00", items := [] }

/-- An order endpoint that always accepts. -/
def submitOk : List OrderItemCreate → Except OrderApiError OrderResponse :=
  fun _ => .ok orderA

/-- Witness for `reconciliation_pass_iff_submit`: scenario A — one line
(id 7, qty 2), lookup unchanged, so the submitted request is
`[{book_id: 7, quantity: 2}]`. -/
theorem reconciliation_pass_iff_submit_witness :
    (handlePlaceOrder true (some "token") cartA lookupUnchanged submitOk).submitted =
      some [{ book_id := 7, quantity := 2 }] := by
  have h := (reconciliation_pass_iff_submit "token" cartA lookupUnchanged submitOk
    (by decide)).1 (by decide)
  rw [h]
  rfl

/-- The ids queued for removal, expressed over the snapshot lines. -/
theorem processResults_itemsToRemove (items : List CartItem)
    (lookup : CartItem → Except FetchError BookResponse) :
    (processResults (items.map (fun item => (item, lookup item)))).itemsToRemove =
      (items.filter (fun item => removedLine (lookup item))).map (fun item => item.id) := by
  unfold processResults
  rw [foldl_processResult_itemsToRemove, List.filter_map, List.map_map]
  rfl

/-- The number of messages surfaced, expressed over the snapshot lines. -/
theorem processResults_messages_length (items : List CartItem)
    (lookup : CartItem → Except FetchError BookResponse) :
    (processResults (items.map (fun item =>
        (item, lookup item)))).validationMessages.length =
      (items.filter (fun item => !(lineUnchanged item (lookup item)))).length := by
  unfold processResults
  rw [foldl_processResult_messages_length, List.filter_map, List.length_map]
  show 0 + _ = _
  rw [Nat.zero_add]
  rfl

/-- C5: when some snapshot line is not Unchanged, no order is submitted; every
not-found line is deleted from the live cart (the `removeItem` dispatches
amount to filtering those ids out, ids being unique), every drifted or
unverifiable line survives with its cached values untouched, and the outcome
surfaced is the message list with exactly one entry per affected line. -/
theorem reconciliation_failure_effects (token : String) (cart : CartState)
    (lookup : CartItem → Except FetchError BookResponse)
    (submit : List OrderItemCreate → Except OrderApiError OrderResponse)
    (hne : cart.items ≠ [])
    (hnall : ¬ ∀ item ∈ cart.items, lineUnchanged item (lookup item) = true)
    (hnd : (cart.items.map (fun item => item.id)).Nodup) :
    (handlePlaceOrder true (some token) cart lookup submit).submitted = none ∧
    (handlePlaceOrder true (some token) cart lookup submit).cart.items =
      cart.items.filter (fun item => !(removedLine (lookup item))) ∧
    ∃ messages,
      (handlePlaceOrder true (some token) cart lookup submit).outcome =
        .cartUpdated messages ∧
      messages.length =
        (cart.items.filter (fun item => !(lineUnchanged item (lookup item)))).length := by
  have hcnu : (processResults (cart.items.map (fun item =>
      (item, lookup item)))).cartNeedsUpdate = true := by
    rw [processResults_cartNeedsUpdate, List.any_eq_true]
    push_neg at hnall
    obtain ⟨item, hmem, hne'⟩ := hnall
    refine ⟨item, hmem, ?_⟩
    simp only [Bool.not_eq_true] at hne'
    simp [hne']
  have hrun : handlePlaceOrder true (some token) cart lookup submit =
      { cart := (processResults (cart.items.map (fun item =>
          (item, lookup item)))).itemsToRemove.foldl removeItem cart
        outcome := .cartUpdated (processResults (cart.items.map (fun item =>
          (item, lookup item)))).validationMessages
        submitted := none } := by
    rw [handlePlaceOrder_authed token cart lookup submit hne]
    simp [hcnu]
  refine ⟨?_, ?_, ?_⟩
  · rw [hrun]
  · have h2 : (handlePlaceOrder true (some token) cart lookup submit).cart =
        (processResults (cart.items.map (fun item =>
          (item, lookup item)))).itemsToRemove.foldl removeItem cart := by
      rw [hrun]
    rw [h2, processResults_itemsToRemove, foldl_removeItem_items]
    refine List.filter_congr ?_
    intro item hmem
    cases hrem : removedLine (lookup item) with
    | true =>
      have : item.id ∈ (cart.items.filter (fun i =>
          removedLine (lookup i))).map (fun i => i.id) :=
        List.mem_map_of_mem _ (List.mem_filter.mpr ⟨hmem, hrem⟩)
      simp [this]
    | false =>
      have : ¬ item.id ∈ (cart.items.filter (fun i =>
          removedLine (lookup i))).map (fun i => i.id) := by
        intro hmem'
        obtain ⟨j, hj, hid⟩ := List.mem_map.mp hmem'
        have hj' := List.mem_filter.mp hj
        have : j = item := List.inj_on_of_nodup_map hnd hj'.1 hmem hid
        rw [this] at hj'
        rw [hj'.2] at hrem
        cases hrem
      simp [this]
  · exact ⟨_, by rw [hrun], processResults_messages_length cart.items lookup⟩

/-- Witness for `reconciliation_failure_effects`: scenario B — id 7 drifted to
$12, id 9 not found: nothing is submitted and the surviving cart lines are
exactly the non-removed ones (id 7, cached values intact). -/
theorem reconciliation_failure_effects_witness :
    (handlePlaceOrder true (some "token") cartB lookupB submitOk).submitted = none ∧
    (handlePlaceOrder true (some "token") cartB lookupB submitOk).cart.items =
      cartB.items.filter (fun item => !(removedLine (lookupB item))) := by
  have h := reconciliation_failure_effects "token" cartB lookupB submitOk
    (by decide) (by decide) (by decide)
  exact ⟨h.1, h.2.1⟩

/-- C8: with every line Unchanged, submission happens and is atomic for the
cart: acceptance clears the cart to the empty state (`clearCart`) and surfaces
the returned confirmation; rejection leaves the whole `CartState` — lines,
`totalItems` and `totalPrice` — exactly as it was, surfacing one translated
message. -/
theorem order_submission_atomic (token : String) (cart : CartState)
    (lookup : CartItem → Except FetchError BookResponse)
    (submit : List OrderItemCreate → Except OrderApiError OrderResponse)
    (hne : cart.items ≠ [])
    (hall : ∀ item ∈ cart.items, lineUnchanged item (lookup item) = true) :
    (∀ order,
      submit (cart.items.map (fun item =>
        { book_id := item.id, quantity := item.quantity : OrderItemCreate })) = .ok order →
      handlePlaceOrder true (some token) cart lookup submit =
        { cart := initialState, outcome := .orderPlaced order
          submitted := some (cart.items.map (fun item =>
            { book_id := item.id, quantity := item.quantity })) }) ∧
    (∀ e,
      submit (cart.items.map (fun item =>
        { book_id := item.id, quantity := item.quantity : OrderItemCreate })) = .error e →
      handlePlaceOrder true (some token) cart lookup submit =
        { cart := cart, outcome := .orderFailed (translateOrderError e)
          submitted := some (cart.items.map (fun item =>
            { book_id := item.id, quantity := item.quantity })) }) := by
  have hcnu : (processResults (cart.items.map (fun item =>
      (item, lookup item)))).cartNeedsUpdate = false := by
    rw [processResults_cartNeedsUpdate, List.any_eq_false]
    intro item hmem
    simp [hall item hmem]
  rw [handlePlaceOrder_authed token cart lookup submit hne]
  simp only [hcnu, Bool.false_eq_true, if_false]
  constructor
  · intro order hsub
    rw [hsub]
    rfl
  · intro e hsub
    rw [hsub]

/-- Witness for `order_submission_atomic`: scenario A with an accepting
endpoint — the cart is cleared and the confirmation surfaced. -/
theorem order_submission_atomic_witness :
    handlePlaceOrder true (some "token") cartA lookupUnchanged submitOk =
      { cart := initialState, outcome := .orderPlaced orderA
        submitted := some (cartA.items.map (fun item =>
          { book_id := item.id, quantity := item.quantity })) } :=
  (order_submission_atomic "token" cartA lookupUnchanged submitOk
    (by decide) (by decide)).1 orderA rfl

/-- A FastAPI-style field-validation error body:
`{"detail": [{"loc": ["body", "items"], "msg": "field required"}]}`. -/
def validationBody : JsValue :=
  .obj [("detail", .arr [.obj [("loc", .arr [.str "body", .str "items"]),
                               ("msg", .str "field required")]])]

/-- C9 counterexample: a field-level validation error list in the body is not
rendered as `Input error for <field>: <message>` from the first field error —
the catch block shows `JSON.stringify` of the raw list (there is also no
conflict-specific friendly message and no use of a generic `message` field in
this path). -/
theorem translateOrderError_counterexample :
    translateOrderError (.httpError (.ok validationBody)) =
      "[\x7b\"loc\":[\"body\",\"items\"],\"msg\":\"field required\"\x7d]" ∧
    "[\x7b\"loc\":[\"body\",\"items\"],\"msg\":\"field required\"\x7d]" ≠
      "Input error for \x27items\x27: field required" := by
  exact ⟨rfl, by decide⟩

/-- Corrected C9: the failure message is chosen by this precedence — a
parseable body with a truthy `detail` yields the detail itself when it is a
string and its `JSON.stringify` rendering otherwise (field-error lists are
serialized verbatim, with no special formatting and no conflict-specific
rewording); an `Error` without a response yields its `message`; everything
else — unparseable body, absent or falsy `detail`, or no structured error —
yields the fixed fallback string. -/
theorem translateOrderError_spec (s m : String) (v : JsValue) :
    (s ≠ "" →
      translateOrderError (.httpError (.ok (.obj [("detail", .str s)]))) = s) ∧
    (truthy v = true → v.isStr = false →
      translateOrderError (.httpError (.ok (.obj [("detail", v)]))) = jsStringify v) ∧
    translateOrderError (.jsError m) = m ∧
    translateOrderError (.httpError (.error ())) = defaultOrderErrorMessage ∧
    translateOrderError .otherError = defaultOrderErrorMessage ∧
    translateOrderError (.httpError (.ok (.obj []))) = defaultOrderErrorMessage := by
  refine ⟨?_, ?_, rfl, rfl, rfl, rfl⟩
  · intro hs
    simp [translateOrderError, jsGet, List.lookup, truthy, hs]
  · intro htruthy hstr
    cases v with
    | str t => cases hstr
    | null => cases htruthy
    | bool b => simp [translateOrderError, jsGet, List.lookup, truthy] at htruthy ⊢; simp [htruthy]
    | num q => simp [translateOrderError, jsGet, List.lookup, truthy] at htruthy ⊢; simp [htruthy]
    | arr elems => simp [translateOrderError, jsGet, List.lookup, truthy]
    | obj fields => simp [translateOrderError, jsGet, List.lookup, truthy]

/-- Witness for `translateOrderError_spec` at concrete inputs. -/
theorem translateOrderError_spec_witness :
    translateOrderError (.httpError (.ok (.obj [("detail",
      .str "Order already exists")]))) = "Order already exists" ∧
    translateOrderError (.httpError (.ok (.obj [("detail",
      .arr [.str "bad"])]))) = jsStringify (.arr [.str "bad"]) ∧
    translateOrderError (.jsError "Failed to fetch") = "Failed to fetch" :=
  ⟨(translateOrderError_spec "Order already exists" "Failed to fetch"
      (.arr [.str "bad"])).1 (by decide),
   (translateOrderError_spec "Order already exists" "Failed to fetch"
      (.arr [.str "bad"])).2.1 rfl rfl,
   (translateOrderError_spec "Order already exists" "Failed to fetch"
      (.arr [.str "bad"])).2.2.1⟩

end Bookworm
